import Mathlib

/-!
Verification of the SafeStake repository's specified behaviour.

The development shallowly embeds the TypeScript sources:
* `src/sdk/src/SafeStakeSDK.ts` (operator SDK: `registerUser`,
  `parseEligibilityResult`) and its browser twin
  `safeStakeSDK.browser.ts`;
* `src/backend-verifier/src/server.ts` (the Express verify-and-sign relay);
* the SDK's `VerifierClient.ts` (backend client);
* the backend integration test that re-verifies signatures.

The Concordium registry smart contract itself is not part of the
repository snapshot, so its `check_eligibility` entrypoint is modelled
from the specification (marked as such below), as is the abstract
Ed25519 scheme provided by the `@noble/ed25519` dependency.
-/

namespace SafeStake

/-! ## SDK data model (`src/sdk/src/types.ts`) -/

/-- Machine-readable ineligibility reason, mirroring the string union in
`EligibilityCheckResult.reason` of `src/sdk/src/types.ts`. -/
inductive Reason where
  | not_registered
  | daily_limit
  | monthly_limit
  | self_excluded
  | on_cooldown
  | age_not_verified
deriving DecidableEq, Repr

/-- Result of an eligibility query, mirroring `EligibilityCheckResult`
in `src/sdk/src/types.ts` (the two optional remaining-limit fields are
never set by `parseEligibilityResult` and are omitted). -/
structure EligibilityCheckResult where
  eligible : Bool
  reason : Option Reason
  message : String
deriving DecidableEq, Repr

/-! ## Deserialized contract return value

`parseEligibilityResult` receives the value produced by
`deserializeReceiveReturnValue` and probes it for the seven variant
keys with `status.<Variant> !== undefined`.  We model the deserialized
JavaScript object by one boolean per probed key. -/

/-- A deserialized `check_eligibility` return value as seen by the SDK:
which of the seven variant keys are present on the JavaScript object. -/
structure StatusObj where
  hasEligible : Bool
  hasNotRegistered : Bool
  hasDailyLimitReached : Bool
  hasMonthlyLimitReached : Bool
  hasSelfExcluded : Bool
  hasOnCooldown : Bool
  hasAgeNotVerified : Bool
deriving DecidableEq, Repr

/-- Outcome of the `try { deserializeReceiveReturnValue ... }` block:
either a deserialized object, or the deserializer threw. -/
inductive DeserializeOutcome where
  | value : StatusObj → DeserializeOutcome
  | threw : DeserializeOutcome
deriving DecidableEq, Repr

/-- The `InvokeContractResult` cases distinguished by
`parseEligibilityResult`: `tag === "failure"`, success without a
`returnValue`, or success with a return value whose deserialization
either yields an object or throws. -/
inductive InvokeContractResult where
  | failure : InvokeContractResult
  | success : Option DeserializeOutcome → InvokeContractResult
deriving DecidableEq, Repr

/-- Shallow embedding of `SafeStakeSDK.parseEligibilityResult`
(`src/sdk/src/SafeStakeSDK.ts`, lines 660–753; the browser SDK in
`src/unnamed/part_015` lines 1149–1241 is textually identical). -/
def parseEligibilityResult (result : InvokeContractResult) :
    EligibilityCheckResult :=
  match result with
  | .failure =>
      { eligible := false, reason := some .not_registered,
        message := "User is not registered in the SafeStake system" }
  | .success none =>
      { eligible := false, reason := some .not_registered,
        message := "No return value from contract" }
  | .success (some .threw) =>
      { eligible := false, reason := some .not_registered,
        message := "Failed to parse contract response" }
  | .success (some (.value st)) =>
      if st.hasEligible then
        { eligible := true, reason := none,
          message := "User is eligible to place this bet" }
      else if st.hasNotRegistered then
        { eligible := false, reason := some .not_registered,
          message := "User is not registered" }
      else if st.hasDailyLimitReached then
        { eligible := false, reason := some .daily_limit,
          message := "Daily spending limit would be exceeded" }
      else if st.hasMonthlyLimitReached then
        { eligible := false, reason := some .monthly_limit,
          message := "Monthly spending limit would be exceeded" }
      else if st.hasSelfExcluded then
        { eligible := false, reason := some .self_excluded,
          message := "User is currently self-excluded" }
      else if st.hasOnCooldown then
        { eligible := false, reason := some .on_cooldown,
          message := "User is in cooldown period" }
      else if st.hasAgeNotVerified then
        { eligible := false, reason := some .age_not_verified,
          message := "User has not completed age verification" }
      else
        { eligible := false, reason := some .not_registered,
          message := "Unknown eligibility status" }

/-- The seven variants of the contract's `EligibilityStatus` enum, as
named in the SDK and in the specification. -/
inductive EligStatus where
  | Eligible
  | NotRegistered
  | AgeNotVerified
  | SelfExcluded
  | OnCooldown
  | DailyLimitReached
  | MonthlyLimitReached
deriving DecidableEq, Repr

/-- The deserialized object produced for a well-formed contract return
value: exactly the one variant key corresponding to the status is
present (Concordium schema enum serialization). -/
def statusObjOf (st : EligStatus) : StatusObj :=
  { hasEligible := st = .Eligible
    hasNotRegistered := st = .NotRegistered
    hasDailyLimitReached := st = .DailyLimitReached
    hasMonthlyLimitReached := st = .MonthlyLimitReached
    hasSelfExcluded := st = .SelfExcluded
    hasOnCooldown := st = .OnCooldown
    hasAgeNotVerified := st = .AgeNotVerified }

/-! ## JavaScript value model for the relay's request validation

`server.ts` destructures `{ accountAddress, proof }` from the JSON body
and guards with `!accountAddress || typeof accountAddress !== "string"`
and `!proof || typeof proof !== "object"`.  We model the relevant
JavaScript values and their truthiness / `typeof` behaviour. -/

/-- A JSON-derived JavaScript value as relevant to the relay's request
validation: strings, numbers, booleans, non-null objects (including
arrays) and `null`.  A missing field is `Option.none` at the use site. -/
inductive JSVal where
  | str : String → JSVal
  | num : Int → JSVal
  | boolean : Bool → JSVal
  | obj : JSVal
  | null : JSVal
deriving DecidableEq, Repr

/-- JavaScript truthiness of a `JSVal` (`!v` is the negation of this). -/
def JSVal.truthy : JSVal → Bool
  | .str s => decide (s ≠ "")
  | .num n => decide (n ≠ 0)
  | .boolean b => b
  | .obj => true
  | .null => false

/-- `typeof v === "string"`. -/
def JSVal.typeofIsString : JSVal → Bool
  | .str _ => true
  | _ => false

/-- `typeof v === "object"` (true for `null` as well, as in JavaScript). -/
def JSVal.typeofIsObject : JSVal → Bool
  | .obj => true
  | .null => true
  | _ => false

/-! ## Hex encoding (`Buffer.from(bytes).toString("hex")`) -/

/-- Lowercase hex digit for a value below 16, as produced by Node's
`Buffer.prototype.toString("hex")`. -/
def hexDigitChar (n : ℕ) : Char :=
  if n < 10 then Char.ofNat (48 + n) else Char.ofNat (87 + n)

/-- Two-digit lowercase hex rendering of one byte. -/
def byteToHex (b : ℕ) : List Char :=
  [hexDigitChar (b / 16), hexDigitChar (b % 16)]

/-- `Buffer.from(bytes).toString("hex")`: lowercase hex string of a byte
sequence. -/
def bytesToHex (bs : List ℕ) : String :=
  String.mk (bs.map byteToHex).flatten

/-- The character class `[0-9a-fA-F]` of the SDK's signature regexes. -/
def isHexDigitJS (c : Char) : Bool :=
  (48 ≤ c.toNat && c.toNat ≤ 57) ||
  (97 ≤ c.toNat && c.toNat ≤ 102) ||
  (65 ≤ c.toNat && c.toNat ≤ 70)

/-! ## The relay's verify-and-sign handler
(`src/backend-verifier/src/server.ts`, lines 66–171) -/

/-- Outcome of the `axios.post` call to the Concordium hosted verifier,
as distinguished by the handler's inner `catch`: the request succeeded,
or it failed with an HTTP error response carrying a status
(`error.response?.status`), or it failed with no response at all
(network error / timeout, so `error.response` is `undefined`). -/
inductive UpstreamResult where
  | accepted : UpstreamResult
  | rejectedWithStatus : ℕ → UpstreamResult
  | noResponse : String → UpstreamResult
deriving DecidableEq, Repr

/-- Observable outcome of one handler invocation: HTTP status, the
`error` field of an error body (`none` on success), the returned
signature (`none` unless success), together with whether the upstream
verifier was contacted and whether the signing key was used. -/
structure HandlerResult where
  status : ℕ
  error : Option String
  signature : Option String
  accountAddress : Option String
  contactedUpstream : Bool
  signed : Bool
deriving DecidableEq, Repr

/-- The 400 response produced by the two input-validation guards
(`error: "Invalid Request"`); nothing downstream runs. -/
def invalidRequestResp : HandlerResult :=
  { status := 400, error := some "Invalid Request", signature := none,
    accountAddress := none, contactedUpstream := false, signed := false }

/-- `server.ts` lines 136–139: the account address with a leading `"3"`
stripped (`accountAddress.startsWith("3") ? accountAddress.substring(1)
: accountAddress`); this is the message that gets signed.  A
single-character `startsWith` is the head-character test, and
`substring(1)` drops the first character (addresses are ASCII
Base58). -/
def addressToSign (accountAddress : String) : String :=
  if accountAddress.data.head? = some '3' then
    String.mk (accountAddress.data.drop 1)
  else accountAddress

/-- Steps 1–3 of the handler after input validation: contact the
upstream verifier, and on acceptance sign the stripped address bytes
and hex-encode the 64-byte signature.  `signBytes` abstracts
`ed25519.sign(messageBytes, privateKeyBytes)`. -/
def handleUpstream (accountAddress : String) (upstream : UpstreamResult)
    (signBytes : String → List ℕ) : HandlerResult :=
  match upstream with
  | .rejectedWithStatus s =>
      if s = 400 ∨ s = 404 then
        { status := 400, error := some "Invalid Proof", signature := none,
          accountAddress := none, contactedUpstream := true, signed := false }
      else
        { status := 500, error := some "Server Error", signature := none,
          accountAddress := none, contactedUpstream := true, signed := false }
  | .noResponse _ =>
      { status := 500, error := some "Server Error", signature := none,
        accountAddress := none, contactedUpstream := true, signed := false }
  | .accepted =>
      { status := 200, error := none,
        signature := some (bytesToHex (signBytes (addressToSign accountAddress))),
        accountAddress := some accountAddress,
        contactedUpstream := true, signed := true }

/-- Shallow embedding of the `POST /api/verify-and-sign` handler
(`src/backend-verifier/src/server.ts`, lines 66–171).  The two guards
are `!accountAddress || typeof accountAddress !== "string"` and
`!proof || typeof proof !== "object"`; a missing field is `none`. -/
def verifyAndSignHandler (accountAddress proof : Option JSVal)
    (upstream : UpstreamResult) (signBytes : String → List ℕ) :
    HandlerResult :=
  match accountAddress with
  | some (JSVal.str a) =>
      if a = "" then invalidRequestResp
      else
        match proof with
        | some p =>
            if !p.truthy || !p.typeofIsObject then invalidRequestResp
            else handleUpstream a upstream signBytes
        | none => invalidRequestResp
  | _ => invalidRequestResp

/-! ## The integration test's verification-side transform
(`src/unnamed/part_003`, lines 151–165 and 184–197) -/

/-- The address whose UTF-8 bytes the integration test verifies the
signature against (`accountAddress.startsWith("3") ?
accountAddress.substring(1) : accountAddress`). -/
def addressToVerify (accountAddress : String) : String :=
  if accountAddress.data.head? = some '3' then
    String.mk (accountAddress.data.drop 1)
  else accountAddress

/-- The request's `accountAddress` field is missing or not a string
(the situation named by claim C5). -/
def badAccountField : Option JSVal → Bool
  | none => true
  | some (.str _) => false
  | some _ => true

/-- The request's `proof` field is missing or not an object (`null`,
which JavaScript types as `"object"` but which is not an object value,
counts as missing content here; the handler rejects it by
truthiness). -/
def badProofField : Option JSVal → Bool
  | none => true
  | some .obj => false
  | some _ => true

/-- Modelled from the spec: §6 defines the signed message as the account
identifier "with any leading network-version character stripped"
(claim C2's reading: the leading version character is removed regardless
of which character it is).  The corresponding transform drops the first
character of the address.  This definition follows the spec's words, to
be compared with `addressToSign`, which follows the code. -/
def specStripVersionChar (accountAddress : String) : String :=
  String.mk (accountAddress.data.drop 1)

/-! ## `SafeStakeSDK.registerUser`
(`src/sdk/src/SafeStakeSDK.ts`, lines 230–322; the browser SDK in
`src/unnamed/part_015` lines 174–245 is textually identical) -/

/-- ASCII lowering of one character, as `String.prototype.toLowerCase`
acts on the ASCII range (the only range occurring in hex signatures). -/
def toLowerAscii (c : Char) : Char :=
  if 65 ≤ c.toNat && c.toNat ≤ 90 then Char.ofNat (c.toNat + 32) else c

/-- `s.toLowerCase()` for ASCII strings: character-wise lowering. -/
def jsToLowerCase (s : String) : String :=
  String.mk (s.data.map toLowerAscii)

/-- The object serialized as the `register_user` contract parameter
(`SafeStakeSDK.ts` lines 260–263): the account's Base58 address and the
signature lowercased (`request.signature.toLowerCase()`). -/
structure RegisterParams where
  account : String
  signature : String
deriving DecidableEq, Repr

/-- Parameter construction of `registerUser`. -/
def registerParams (account signature : String) : RegisterParams :=
  { account := account, signature := jsToLowerCase signature }

/-- Outcome of the submitted transaction once finalized, as
distinguished by `registerUser`: finalized successfully (with its
hash), or finalized as `"failed"` with a reject reason. -/
inductive TxOutcome where
  | finalizedOk : String → TxOutcome
  | finalizedFailed : String → TxOutcome
deriving DecidableEq, Repr

/-- Observable outcome of `registerUser`: the returned
`RegisterUserResult` fields plus whether a transaction was sent to the
chain and, when one was, the parameters it carried. -/
structure RegisterResult where
  success : Bool
  error : Option String
  transactionHash : Option String
  sentTransaction : Bool
  params : Option RegisterParams
deriving DecidableEq, Repr

/-- Shallow embedding of `SafeStakeSDK.registerUser`.  The guards mirror
the source: the SDK must be initialized (`moduleSchema` loaded), the
signature must be truthy and of length 128
(`!request.signature || request.signature.length !== 128`), and must
match `/^[0-9a-fA-F]{128}$/`; every thrown error is caught and returned
as `{success: false, error}`. -/
def registerUser (initialized : Bool) (account signature : String)
    (tx : TxOutcome) : RegisterResult :=
  if !initialized then
    { success := false,
      error := some "SDK not initialized. Call initialize() first.",
      transactionHash := none, sentTransaction := false, params := none }
  else if signature = "" || signature.length ≠ 128 then
    { success := false,
      error := some "Invalid signature: must be 128 hex characters (64 bytes)",
      transactionHash := none, sentTransaction := false, params := none }
  else if !(signature.data.all isHexDigitJS) then
    { success := false,
      error := some "Invalid signature: not valid hexadecimal",
      transactionHash := none, sentTransaction := false, params := none }
  else
    match tx with
    | .finalizedFailed reason =>
        { success := false,
          error := some ("Transaction failed: " ++ reason),
          transactionHash := none, sentTransaction := true,
          params := some (registerParams account signature) }
    | .finalizedOk h =>
        { success := true, error := none, transactionHash := some h,
          sentTransaction := true,
          params := some (registerParams account signature) }

/-! ## `VerifierClient.verifyAndSign` (`src/unnamed/part_017`, lines 127–186) -/

/-- The backend's JSON success body as typed by the client. -/
structure VerifyAndSignResponse where
  signature : String
  accountAddress : String
  timestamp : ℕ
deriving DecidableEq, Repr

/-- What the backend HTTP exchange yielded: a non-ok response with a
status (and possibly a parsed error body), or an ok response with a
parsed `VerifyAndSignResponse`. -/
inductive BackendReply where
  | httpError : ℕ → Option (String × String) → BackendReply
  | okJson : VerifyAndSignResponse → BackendReply
deriving DecidableEq, Repr

/-- Shallow embedding of `VerifierClient.verifyAndSign` after the fetch
resolved: non-ok responses throw; an ok response throws unless its
`signature` is truthy, of length 128 and matches
`/^[0-9a-fA-F]{128}$/`; otherwise the parsed result is returned. -/
def verifyAndSign (reply : BackendReply) :
    Except String VerifyAndSignResponse :=
  match reply with
  | .httpError status errBody =>
      .error (match errBody with
        | some (e, m) => e ++ ": " ++ m
        | none => toString status ++ " error")
  | .okJson result =>
      if result.signature = "" || result.signature.length ≠ 128 then
        .error ("Invalid signature format received from backend. " ++
          "Expected 128 hex characters, got " ++
          toString result.signature.length)
      else if !(result.signature.data.all isHexDigitJS) then
        .error "Invalid signature: not valid hexadecimal"
      else
        .ok result

/-! ## The registry's eligibility engine

The Concordium registry smart contract (entrypoint `check_eligibility`)
is not part of the repository snapshot — only its SDK callers are — so
the engine is modelled from the specification (§3 data model, §4.2 time
windows, §4.3 precedence order). -/

/-- Modelled from the spec: the per-account `ComplianceRecord` of §3
(the registry contract holding it is not under `src/`).  Timestamps are
seconds as natural numbers; `platforms_used` is irrelevant to
eligibility and omitted. -/
structure ComplianceRecord where
  age_verified : Bool
  daily_limit : ℕ
  monthly_limit : ℕ
  daily_spent : ℕ
  monthly_spent : ℕ
  last_reset_day : ℕ
  last_reset_month : ℕ
  cooldown_until : Option ℕ
  self_excluded_until : Option ℕ
deriving DecidableEq, Repr

/-- Modelled from the spec: §4.2's day bucket, the timestamp integer
divided by 86 400 seconds. -/
def dayBucket (t : ℕ) : ℕ := t / 86400

/-- Modelled from the spec: §4.2's month bucket, a fixed 30-day window
(the spec documents this as a simplification, not calendar months). -/
def monthBucket (t : ℕ) : ℕ := t / (30 * 86400)

/-- Modelled from the spec: §4.2 lazy reset — if the current day bucket
differs from the stored one, the daily accumulator counts as zero. -/
def effectiveDailySpent (r : ComplianceRecord) (now : ℕ) : ℕ :=
  if dayBucket now ≠ r.last_reset_day then 0 else r.daily_spent

/-- Modelled from the spec: §4.2 lazy reset for the monthly
accumulator. -/
def effectiveMonthlySpent (r : ComplianceRecord) (now : ℕ) : ℕ :=
  if monthBucket now ≠ r.last_reset_month then 0 else r.monthly_spent

/-- Whether an optional exclusion/cooldown timestamp is set and in the
future. -/
def activeUntil (until? : Option ℕ) (now : ℕ) : Bool :=
  match until? with
  | some t => decide (now < t)
  | none => false

/-- Modelled from the spec: §4.3 `check_eligibility(account,
proposed_amount)` — the seven conditions evaluated in the fixed
precedence order NotRegistered, AgeNotVerified, SelfExcluded,
OnCooldown, DailyLimitReached, MonthlyLimitReached, Eligible, the first
matching condition winning.  `rec` is the Account Store lookup (`none`
when no record exists). -/
def check_eligibility (rec : Option ComplianceRecord)
    (proposed_amount now : ℕ) : EligStatus :=
  match rec with
  | none => .NotRegistered
  | some r =>
      if r.age_verified = false then .AgeNotVerified
      else if activeUntil r.self_excluded_until now then .SelfExcluded
      else if activeUntil r.cooldown_until now then .OnCooldown
      else if r.daily_limit < effectiveDailySpent r now + proposed_amount then
        .DailyLimitReached
      else if r.monthly_limit < effectiveMonthlySpent r now + proposed_amount then
        .MonthlyLimitReached
      else .Eligible

/-! ## Abstract Ed25519 scheme

Modelled from the spec: the relay's signing uses the `@noble/ed25519`
dependency, which is not under `src/`; §4.1 and §5 treat it as
"standard Ed25519".  The scheme is formalized algebraically over an
arbitrary additive commutative group carrying a base point whose order
divides `L`: a signature is the pair `(R, S)` with `R = r·B` and
`S = (r + h·s) mod L`, and verification checks `S·B = R + h·A` for the
public key `A = s·B` and hash value `h = H(R, A, M)`. -/

/-- Group parameters of the abstract Ed25519 scheme: the group order
`L` of the base point `B`. -/
structure EdScheme (G : Type) [AddCommGroup G] where
  L : ℕ
  B : G
  Lpos : 0 < L
  orderB : L • B = 0

/-- Public key derivation `A = s·B`. -/
def edPublicKey {G : Type} [AddCommGroup G] (S : EdScheme G) (s : ℕ) : G :=
  s • S.B

/-- Commitment part of the signature, `R = r·B` for the nonce `r`. -/
def edSignR {G : Type} [AddCommGroup G] (S : EdScheme G) (r : ℕ) : G :=
  r • S.B

/-- Scalar part of the signature, `S = (r + h·s) mod L`. -/
def edSignS {G : Type} [AddCommGroup G] (S : EdScheme G) (s r h : ℕ) : ℕ :=
  (r + h * s) % S.L

/-- Ed25519 verification equation `S·B = R + h·A`. -/
def edVerify {G : Type} [AddCommGroup G] [DecidableEq G] (S : EdScheme G)
    (A R : G) (Ssc h : ℕ) : Bool :=
  decide (Ssc • S.B = R + h • A)

/-- A concrete instance of the abstract Ed25519 scheme, used to witness
the sign-then-verify theorem on an evaluable group: the cyclic group
`ZMod 7` with base point `1`. -/
def toyScheme : EdScheme (ZMod 7) :=
  { L := 7, B := 1, Lpos := by norm_num, orderB := by decide }

/-! ## Helper lemmas -/

/-- `Char.ofNat` round-trips through `Char.toNat` on valid code points. -/
theorem char_toNat_ofNat (n : ℕ) (h : n.isValidChar) :
    (Char.ofNat n).toNat = n := by
  simp [Char.ofNat, h, Char.ofNatAux, Char.toNat, UInt32.toNat,
    BitVec.toNat_ofNatLt]

/-- Characters with equal ASCII-lowered forms agree on hex-digit
membership. -/
theorem toLowerAscii_hex_eq {c1 c2 : Char}
    (h : toLowerAscii c1 = toLowerAscii c2) :
    isHexDigitJS c1 = isHexDigitJS c2 := by
  unfold toLowerAscii at h
  by_cases h1 : (65 ≤ c1.toNat && c1.toNat ≤ 90) = true
  · have hb1 : 65 ≤ c1.toNat ∧ c1.toNat ≤ 90 := by
      simpa [Bool.and_eq_true, decide_eq_true_eq] using h1
    have hv1 : (c1.toNat + 32).isValidChar := Or.inl (by omega)
    by_cases h2 : (65 ≤ c2.toNat && c2.toNat ≤ 90) = true
    · have hb2 : 65 ≤ c2.toNat ∧ c2.toNat ≤ 90 := by
        simpa [Bool.and_eq_true, decide_eq_true_eq] using h2
      have hv2 : (c2.toNat + 32).isValidChar := Or.inl (by omega)
      rw [if_pos h1, if_pos h2] at h
      have hn := congrArg Char.toNat h
      rw [char_toNat_ofNat _ hv1, char_toNat_ofNat _ hv2] at hn
      rw [Bool.eq_iff_iff]
      simp only [isHexDigitJS, Bool.or_eq_true, Bool.and_eq_true,
        decide_eq_true_eq]
      omega
    · have hb2 : ¬(65 ≤ c2.toNat ∧ c2.toNat ≤ 90) := by
        simpa [Bool.and_eq_true, decide_eq_true_eq] using h2
      rw [if_pos h1, if_neg h2] at h
      have hn := congrArg Char.toNat h
      rw [char_toNat_ofNat _ hv1] at hn
      rw [Bool.eq_iff_iff]
      simp only [isHexDigitJS, Bool.or_eq_true, Bool.and_eq_true,
        decide_eq_true_eq]
      omega
  · have hb1 : ¬(65 ≤ c1.toNat ∧ c1.toNat ≤ 90) := by
      simpa [Bool.and_eq_true, decide_eq_true_eq] using h1
    by_cases h2 : (65 ≤ c2.toNat && c2.toNat ≤ 90) = true
    · have hb2 : 65 ≤ c2.toNat ∧ c2.toNat ≤ 90 := by
        simpa [Bool.and_eq_true, decide_eq_true_eq] using h2
      have hv2 : (c2.toNat + 32).isValidChar := Or.inl (by omega)
      rw [if_neg h1, if_pos h2] at h
      have hn := congrArg Char.toNat h
      rw [char_toNat_ofNat _ hv2] at hn
      rw [Bool.eq_iff_iff]
      simp only [isHexDigitJS, Bool.or_eq_true, Bool.and_eq_true,
        decide_eq_true_eq]
      omega
    · rw [if_neg h1, if_neg h2] at h
      rw [h]

/-- Lists with equal ASCII-lowered images agree on the all-hex-digits
test. -/
theorem map_toLower_all_hex {l1 l2 : List Char}
    (h : l1.map toLowerAscii = l2.map toLowerAscii) :
    l1.all isHexDigitJS = l2.all isHexDigitJS := by
  induction l1 generalizing l2 with
  | nil =>
      cases l2 with
      | nil => rfl
      | cons c t => simp at h
  | cons c1 t1 ih =>
      cases l2 with
      | nil => simp at h
      | cons c2 t2 =>
          simp only [List.map_cons, List.cons.injEq] at h
          simp only [List.all_cons, toLowerAscii_hex_eq h.1, ih h.2]

/-! ## Claim theorems -/

/-- C7: for every value returned by the contract's `check_eligibility`
entrypoint (an object carrying exactly the one variant key of its
status), `parseEligibilityResult` reports `eligible = true` exactly for
`Eligible`, and maps each of the six blocking variants to its
machine-readable reason. -/
theorem C7_eligibility_reason_mapping :
    (parseEligibilityResult
      (.success (some (.value (statusObjOf .Eligible))))).eligible = true
    ∧ (parseEligibilityResult
      (.success (some (.value (statusObjOf .Eligible))))).reason = none
    ∧ (parseEligibilityResult
      (.success (some (.value (statusObjOf .NotRegistered)))))
      = ⟨false, some .not_registered, "User is not registered"⟩
    ∧ (parseEligibilityResult
      (.success (some (.value (statusObjOf .AgeNotVerified)))))
      = ⟨false, some .age_not_verified,
          "User has not completed age verification"⟩
    ∧ (parseEligibilityResult
      (.success (some (.value (statusObjOf .SelfExcluded)))))
      = ⟨false, some .self_excluded, "User is currently self-excluded"⟩
    ∧ (parseEligibilityResult
      (.success (some (.value (statusObjOf .OnCooldown)))))
      = ⟨false, some .on_cooldown, "User is in cooldown period"⟩
    ∧ (parseEligibilityResult
      (.success (some (.value (statusObjOf .DailyLimitReached)))))
      = ⟨false, some .daily_limit, "Daily spending limit would be exceeded"⟩
    ∧ (parseEligibilityResult
      (.success (some (.value (statusObjOf .MonthlyLimitReached)))))
      = ⟨false, some .monthly_limit,
          "Monthly spending limit would be exceeded"⟩ := by
  decide

/-- C8: a failed invocation, a missing return value, and a return value
whose deserialization throws all yield `eligible = false` with reason
`not_registered` (the parser never propagates an exception), making
these outcomes indistinguishable — in `eligible` and `reason` — from a
genuinely unregistered account. -/
theorem C8_parse_failure_fallback :
    (parseEligibilityResult .failure).eligible = false
    ∧ (parseEligibilityResult .failure).reason = some .not_registered
    ∧ (parseEligibilityResult (.success none)).eligible = false
    ∧ (parseEligibilityResult (.success none)).reason = some .not_registered
    ∧ (parseEligibilityResult (.success (some .threw))).eligible = false
    ∧ (parseEligibilityResult (.success (some .threw))).reason
        = some .not_registered
    ∧ (parseEligibilityResult .failure).eligible
        = (parseEligibilityResult
            (.success (some (.value (statusObjOf .NotRegistered))))).eligible
    ∧ (parseEligibilityResult .failure).reason
        = (parseEligibilityResult
            (.success (some (.value (statusObjOf .NotRegistered))))).reason := by
  decide

/-- C5: a verify-and-sign request whose `accountAddress` is missing or
not a string, or whose `proof` is missing or not an object, is answered
400 with error "Invalid Request", and the handler neither contacts the
upstream verifier nor produces a signature. -/
theorem C5_validation_rejected_before_upstream
    (aa proof : Option JSVal) (upstream : UpstreamResult)
    (signBytes : String → List ℕ)
    (h : badAccountField aa = true ∨ badProofField proof = true) :
    verifyAndSignHandler aa proof upstream signBytes = invalidRequestResp
    ∧ invalidRequestResp.status = 400
    ∧ invalidRequestResp.error = some "Invalid Request"
    ∧ invalidRequestResp.signature = none
    ∧ invalidRequestResp.contactedUpstream = false
    ∧ invalidRequestResp.signed = false := by
  refine ⟨?_, rfl, rfl, rfl, rfl, rfl⟩
  cases aa with
  | none => rfl
  | some v =>
    cases v with
    | num n => rfl
    | boolean b => rfl
    | obj => rfl
    | null => rfl
    | str a =>
      have hp : badProofField proof = true := by
        rcases h with h | h
        · simp [badAccountField] at h
        · exact h
      unfold verifyAndSignHandler
      by_cases ha : a = ""
      · simp [ha]
      · simp only [if_neg ha]
        cases proof with
        | none => rfl
        | some p =>
          cases p with
          | str s => simp [JSVal.typeofIsObject]
          | num n => simp [JSVal.typeofIsObject]
          | boolean b => simp [JSVal.typeofIsObject]
          | obj => simp [badProofField] at hp
          | null => simp [JSVal.truthy]

/-- C5 witness: a request with `accountAddress` missing is rejected with
400 "Invalid Request" without contacting the upstream verifier. -/
theorem C5_witness :
    verifyAndSignHandler none (some .obj) .accepted (fun _ => [])
      = invalidRequestResp ∧ invalidRequestResp.contactedUpstream = false :=
  ⟨(C5_validation_rejected_before_upstream none (some .obj) .accepted
      (fun _ => []) (Or.inl rfl)).1,
   (C5_validation_rejected_before_upstream none (some .obj) .accepted
      (fun _ => []) (Or.inl rfl)).2.2.2.2.1⟩

/-- C4: with a well-formed request, an upstream rejection with HTTP 400
or 404 yields a 400 response with error "Invalid Proof"; any other
upstream failure (other status, or no response at all — network error /
timeout) yields 500 with the distinct error "Server Error". -/
theorem C4_upstream_error_distinction
    (a : String) (ha : a ≠ "") (p : JSVal)
    (hpt : p.truthy = true) (hpo : p.typeofIsObject = true)
    (s : ℕ) (msg : String) (signBytes : String → List ℕ) :
    ((s = 400 ∨ s = 404) →
      verifyAndSignHandler (some (.str a)) (some p)
          (.rejectedWithStatus s) signBytes
        = { status := 400, error := some "Invalid Proof", signature := none,
            accountAddress := none, contactedUpstream := true,
            signed := false })
    ∧ (¬(s = 400 ∨ s = 404) →
      verifyAndSignHandler (some (.str a)) (some p)
          (.rejectedWithStatus s) signBytes
        = { status := 500, error := some "Server Error", signature := none,
            accountAddress := none, contactedUpstream := true,
            signed := false })
    ∧ verifyAndSignHandler (some (.str a)) (some p) (.noResponse msg)
          signBytes
        = { status := 500, error := some "Server Error", signature := none,
            accountAddress := none, contactedUpstream := true,
            signed := false }
    ∧ (some "Server Error" : Option String) ≠ some "Invalid Proof" := by
  refine ⟨?_, ?_, ?_, by decide⟩
  · intro hs
    unfold verifyAndSignHandler
    simp [ha, hpt, hpo, handleUpstream, hs]
  · intro hs
    unfold verifyAndSignHandler
    simp [ha, hpt, hpo, handleUpstream, hs]
  · unfold verifyAndSignHandler
    simp [ha, hpt, hpo, handleUpstream]

/-- C4 witness: at a concrete request, upstream status 400 maps to 400
"Invalid Proof" and upstream status 503 maps to 500 "Server Error". -/
theorem C4_witness :
    verifyAndSignHandler (some (.str "addr")) (some .obj)
        (.rejectedWithStatus 400) (fun _ => [])
      = { status := 400, error := some "Invalid Proof", signature := none,
          accountAddress := none, contactedUpstream := true,
          signed := false }
    ∧ verifyAndSignHandler (some (.str "addr")) (some .obj)
        (.rejectedWithStatus 503) (fun _ => [])
      = { status := 500, error := some "Server Error", signature := none,
          accountAddress := none, contactedUpstream := true,
          signed := false } :=
  ⟨(C4_upstream_error_distinction "addr" (by decide) .obj rfl rfl 400 ""
      (fun _ => [])).1 (Or.inl rfl),
   (C4_upstream_error_distinction "addr" (by decide) .obj rfl rfl 503 ""
      (fun _ => [])).2.1 (by decide)⟩

/-- C2 counterexample: the account address of the repository's own test
fixture starts with the network-version character `4`, and the relay
signs it unstripped — the signed message is not the address with its
leading network-version character stripped, refuting the claim's
"regardless of which version character the address starts with". -/
theorem C2_counterexample :
    addressToSign "4LqPVpPmpsznqS9QEhNMDSi2UwKUrGKkdo5qc7mGjgeNkZMYq7"
      ≠ specStripVersionChar
          "4LqPVpPmpsznqS9QEhNMDSi2UwKUrGKkdo5qc7mGjgeNkZMYq7" := by
  decide

/-- C2 (amended): the message that is signed is the account address
with a leading `"3"` character (only that character) stripped;
addresses starting with any other character are signed verbatim; the
verifying side (the integration test) applies the identical
transform. -/
theorem C2_amended_transform (a : String) :
    addressToSign a = addressToVerify a
    ∧ (a.data.head? = some '3' →
        addressToSign a = String.mk (a.data.drop 1))
    ∧ (a.data.head? ≠ some '3' → addressToSign a = a) := by
  refine ⟨rfl, ?_, ?_⟩
  · intro h
    unfold addressToSign
    rw [if_pos h]
  · intro h
    unfold addressToSign
    rw [if_neg h]

/-- C2 witness: both sides strip `"3abc"` to `"abc"`, and leave
`"4abc"` untouched. -/
theorem C2_witness :
    addressToSign "3abc" = addressToVerify "3abc"
    ∧ addressToSign "3abc" = "abc"
    ∧ addressToSign "4abc" = "4abc" :=
  ⟨(C2_amended_transform "3abc").1,
   by rw [(C2_amended_transform "3abc").2.1 (by decide)]; decide,
   (C2_amended_transform "4abc").2.2 (by decide)⟩

/-- C6: a `registerUser` request whose signature is not exactly 128
hexadecimal characters (wrong length, empty, or non-hex content)
returns `success = false` with a descriptive error, and no transaction
is sent to the registry contract. -/
theorem C6_register_rejects_malformed_signature
    (account sig : String) (tx : TxOutcome)
    (h : sig.length ≠ 128 ∨ sig.data.all isHexDigitJS = false) :
    (registerUser true account sig tx).success = false
    ∧ (registerUser true account sig tx).sentTransaction = false
    ∧ (registerUser true account sig tx).transactionHash = none
    ∧ (registerUser true account sig tx).params = none
    ∧ (registerUser true account sig tx).error.isSome = true := by
  rcases h with h | h
  · simp [registerUser, h]
  · by_cases hlen : sig.length = 128
    · have hne : sig ≠ "" := by
        intro he
        rw [he] at hlen
        simp [String.length] at hlen
      simp [registerUser, hne, hlen, h]
    · simp [registerUser, hlen]

/-- C6 witness: the two-character signature `"zz"` is rejected without
any transaction being sent. -/
theorem C6_witness :
    (registerUser true "acct" "zz" (.finalizedOk "hash")).success = false
    ∧ (registerUser true "acct" "zz" (.finalizedOk "hash")).sentTransaction
        = false :=
  ⟨(C6_register_rejects_malformed_signature "acct" "zz" (.finalizedOk "hash")
      (Or.inl (by decide))).1,
   (C6_register_rejects_malformed_signature "acct" "zz" (.finalizedOk "hash")
      (Or.inl (by decide))).2.1⟩

/-- C10: two `registerUser` requests whose signatures differ only in
hexadecimal letter case serialize identical contract parameters (the
signature is lowercased before serialization), both pass validation,
and both send a transaction with the same payload. -/
theorem C10_signature_case_insensitive
    (account s1 s2 : String) (tx1 tx2 : TxOutcome)
    (hlen : s1.length = 128) (hhex : s1.data.all isHexDigitJS = true)
    (hcase : jsToLowerCase s1 = jsToLowerCase s2) :
    registerParams account s1 = registerParams account s2
    ∧ s2.length = 128
    ∧ s2.data.all isHexDigitJS = true
    ∧ (registerUser true account s1 tx1).sentTransaction = true
    ∧ (registerUser true account s2 tx2).sentTransaction = true
    ∧ (registerUser true account s1 tx1).params
        = (registerUser true account s2 tx2).params := by
  have hm : s1.data.map toLowerAscii = s2.data.map toLowerAscii := by
    simpa [jsToLowerCase] using congrArg String.data hcase
  have hlen2 : s2.length = 128 := by
    have hl := congrArg List.length hm
    simp only [List.length_map] at hl
    have : s2.length = s2.data.length := rfl
    rw [this, ← hl]
    exact hlen
  have hhex2 : s2.data.all isHexDigitJS = true := by
    rw [← map_toLower_all_hex hm]
    exact hhex
  have hne1 : s1 ≠ "" := by
    intro he
    rw [he] at hlen
    simp [String.length] at hlen
  have hne2 : s2 ≠ "" := by
    intro he
    rw [he] at hlen2
    simp [String.length] at hlen2
  refine ⟨?_, hlen2, hhex2, ?_, ?_, ?_⟩
  · simp [registerParams, hcase]
  · cases tx1 <;> simp [registerUser, hne1, hlen, hhex]
  · cases tx2 <;> simp [registerUser, hne2, hlen2, hhex2]
  · cases tx1 <;> cases tx2 <;>
      simp [registerUser, hne1, hne2, hlen, hlen2, hhex, hhex2,
        registerParams, hcase]

set_option maxRecDepth 8000 in
/-- C10 witness: 128 uppercase `A`s and 128 lowercase `a`s serialize
the same `register_user` parameters. -/
theorem C10_witness :
    registerParams "acct" (String.mk (List.replicate 128 'A'))
      = registerParams "acct" (String.mk (List.replicate 128 'a'))
    ∧ (String.mk (List.replicate 128 'a')).length = 128 :=
  ⟨(C10_signature_case_insensitive "acct"
      (String.mk (List.replicate 128 'A')) (String.mk (List.replicate 128 'a'))
      (.finalizedOk "h") (.finalizedOk "h")
      (by decide) (by decide) (by decide)).1,
   (C10_signature_case_insensitive "acct"
      (String.mk (List.replicate 128 'A')) (String.mk (List.replicate 128 'a'))
      (.finalizedOk "h") (.finalizedOk "h")
      (by decide) (by decide) (by decide)).2.1⟩

/-- C9: every successful `VerifierClient.verifyAndSign` result carries
a signature of exactly 128 hexadecimal characters; a backend response
whose signature has any other length or non-hex content makes the
client throw instead of returning it. -/
theorem C9_signature_format_guarantee :
    (∀ (reply : BackendReply) (r : VerifyAndSignResponse),
        verifyAndSign reply = .ok r →
        r.signature.length = 128 ∧ r.signature.data.all isHexDigitJS = true)
    ∧ (∀ resp : VerifyAndSignResponse,
        resp.signature.length ≠ 128
          ∨ resp.signature.data.all isHexDigitJS = false →
        ∃ e, verifyAndSign (.okJson resp) = .error e) := by
  constructor
  · intro reply r h
    cases reply with
    | httpError s e => simp [verifyAndSign] at h
    | okJson result =>
        simp only [verifyAndSign] at h
        split at h
        next hc1 => exact absurd h (by simp)
        next hc1 =>
          split at h
          next hc2 => exact absurd h (by simp)
          next hc2 =>
            cases h
            simp only [Bool.or_eq_true, decide_eq_true_eq, not_or] at hc1
            simp only [Bool.not_eq_true', Bool.not_eq_false] at hc2
            exact ⟨by omega, hc2⟩
  · intro resp h
    by_cases h1 :
        (decide (resp.signature = "")
          || decide (resp.signature.length ≠ 128)) = true
    · refine ⟨"Invalid signature format received from backend. " ++
        "Expected 128 hex characters, got " ++
        toString resp.signature.length, ?_⟩
      simp only [verifyAndSign, h1, if_true]
    · have hlen : resp.signature.length = 128 := by
        simp only [Bool.or_eq_true, decide_eq_true_eq, not_or] at h1
        omega
      have hhex : resp.signature.data.all isHexDigitJS = false := by
        rcases h with h | h
        · exact absurd hlen h
        · exact h
      have hne : resp.signature ≠ "" := by
        intro he
        rw [he] at hlen
        simp [String.length] at hlen
      refine ⟨"Invalid signature: not valid hexadecimal", ?_⟩
      simp [verifyAndSign, hne, hlen, hhex]

set_option maxRecDepth 8000 in
/-- C9 witness: the two-character signature `"ab"` is rejected with an
error, and a 128-hex-character response passes through with its length
certified. -/
theorem C9_witness :
    (∃ e, verifyAndSign (.okJson ⟨"ab", "acct", 0⟩) = .error e)
    ∧ (String.mk (List.replicate 128 'a')).length = 128 :=
  ⟨C9_signature_format_guarantee.2 ⟨"ab", "acct", 0⟩ (Or.inl (by decide)),
   (C9_signature_format_guarantee.1
      (.okJson ⟨String.mk (List.replicate 128 'a'), "acct", 0⟩)
      ⟨String.mk (List.replicate 128 'a'), "acct", 0⟩ (by rfl)).1⟩

/-- Scalar multiples of a point of order dividing `L` only depend on the
scalar modulo `L`. -/
theorem mod_nsmul_eq {G : Type} [AddCommGroup G] (L a : ℕ) (B : G)
    (hB : L • B = 0) : (a % L) • B = a • B := by
  conv_rhs => rw [← Nat.div_add_mod a L]
  rw [add_nsmul, mul_comm, mul_smul, hB, smul_zero, zero_add]

/-- A hex digit character produced by `hexDigitChar` on a value below 16
belongs to the `[0-9a-fA-F]` class. -/
theorem hexDigitChar_isHex {n : ℕ} (h : n < 16) :
    isHexDigitJS (hexDigitChar n) = true := by
  unfold hexDigitChar isHexDigitJS
  by_cases h10 : n < 10
  · rw [if_pos h10, char_toNat_ofNat _ (Or.inl (by omega))]
    simp only [Bool.or_eq_true, Bool.and_eq_true, decide_eq_true_eq]
    omega
  · rw [if_neg h10, char_toNat_ofNat _ (Or.inl (by omega))]
    simp only [Bool.or_eq_true, Bool.and_eq_true, decide_eq_true_eq]
    omega

/-- The hex rendering of `n` bytes has `2 n` characters. -/
theorem bytesToHex_length (bs : List ℕ) :
    (bytesToHex bs).length = 2 * bs.length := by
  show ((bs.map byteToHex).flatten).length = 2 * bs.length
  induction bs with
  | nil => rfl
  | cons b t ih =>
      simp only [List.map_cons, List.flatten_cons, List.length_append,
        List.length_cons, byteToHex, List.length_nil] at *
      omega

/-- The hex rendering of bytes (values below 256) consists of hex-digit
characters only. -/
theorem bytesToHex_all_hex {bs : List ℕ} (h : ∀ b ∈ bs, b < 256) :
    (bytesToHex bs).data.all isHexDigitJS = true := by
  show ((bs.map byteToHex).flatten).all isHexDigitJS = true
  induction bs with
  | nil => rfl
  | cons b t ih =>
      have hb : b < 256 := h b (List.mem_cons_self b t)
      have hdiv : b / 16 < 16 := by omega
      have hmod : b % 16 < 16 := Nat.mod_lt _ (by norm_num)
      simp only [List.map_cons, List.flatten_cons, List.all_append,
        byteToHex, List.all_cons, List.all_nil,
        hexDigitChar_isHex hdiv, hexDigitChar_isHex hmod,
        Bool.and_true, Bool.true_and]
      exact ih (fun x hx => h x (List.mem_cons_of_mem _ hx))

/-- C1: `check_eligibility` evaluates its blocking conditions in the
fixed precedence order NotRegistered, AgeNotVerified, SelfExcluded,
OnCooldown, DailyLimitReached, MonthlyLimitReached, Eligible, the first
matching condition winning; in particular an (age-verified) record with
`self_excluded_until` in the future and `daily_spent = daily_limit`
yields `SelfExcluded`, never `DailyLimitReached`. -/
theorem C1_check_eligibility_precedence
    (r : ComplianceRecord) (amount now t : ℕ)
    (hage : r.age_verified = true)
    (hexcl : r.self_excluded_until = some t)
    (hfut : now < t)
    (hday : r.daily_spent = r.daily_limit) :
    check_eligibility (some r) amount now = .SelfExcluded
    ∧ check_eligibility (some r) amount now ≠ .DailyLimitReached
    ∧ (∀ amt n2, check_eligibility none amt n2 = .NotRegistered)
    ∧ (∀ (r2 : ComplianceRecord) (amt n2 : ℕ), r2.age_verified = false →
        check_eligibility (some r2) amt n2 = .AgeNotVerified)
    ∧ (∀ (r2 : ComplianceRecord) (amt n2 : ℕ), r2.age_verified = true →
        activeUntil r2.self_excluded_until n2 = true →
        check_eligibility (some r2) amt n2 = .SelfExcluded)
    ∧ (∀ (r2 : ComplianceRecord) (amt n2 : ℕ), r2.age_verified = true →
        activeUntil r2.self_excluded_until n2 = false →
        activeUntil r2.cooldown_until n2 = true →
        check_eligibility (some r2) amt n2 = .OnCooldown)
    ∧ (∀ (r2 : ComplianceRecord) (amt n2 : ℕ), r2.age_verified = true →
        activeUntil r2.self_excluded_until n2 = false →
        activeUntil r2.cooldown_until n2 = false →
        r2.daily_limit < effectiveDailySpent r2 n2 + amt →
        check_eligibility (some r2) amt n2 = .DailyLimitReached)
    ∧ (∀ (r2 : ComplianceRecord) (amt n2 : ℕ), r2.age_verified = true →
        activeUntil r2.self_excluded_until n2 = false →
        activeUntil r2.cooldown_until n2 = false →
        ¬(r2.daily_limit < effectiveDailySpent r2 n2 + amt) →
        r2.monthly_limit < effectiveMonthlySpent r2 n2 + amt →
        check_eligibility (some r2) amt n2 = .MonthlyLimitReached)
    ∧ (∀ (r2 : ComplianceRecord) (amt n2 : ℕ), r2.age_verified = true →
        activeUntil r2.self_excluded_until n2 = false →
        activeUntil r2.cooldown_until n2 = false →
        ¬(r2.daily_limit < effectiveDailySpent r2 n2 + amt) →
        ¬(r2.monthly_limit < effectiveMonthlySpent r2 n2 + amt) →
        check_eligibility (some r2) amt n2 = .Eligible) := by
  have hact : activeUntil r.self_excluded_until now = true := by
    rw [hexcl]
    unfold activeUntil
    simpa using hfut
  refine ⟨?_, ?_, ?_, ?_, ?_, ?_, ?_, ?_, ?_⟩
  · simp [check_eligibility, hage, hact]
  · simp [check_eligibility, hage, hact]
  · intro amt n2
    rfl
  · intro r2 amt n2 h2
    simp [check_eligibility, h2]
  · intro r2 amt n2 h2 h3
    simp [check_eligibility, h2, h3]
  · intro r2 amt n2 h2 h3 h4
    simp [check_eligibility, h2, h3, h4]
  · intro r2 amt n2 h2 h3 h4 h5
    simp [check_eligibility, h2, h3, h4, h5]
  · intro r2 amt n2 h2 h3 h4 h5 h6
    simp [check_eligibility, h2, h3, h4, h5, h6]
  · intro r2 amt n2 h2 h3 h4 h5 h6
    simp [check_eligibility, h2, h3, h4, h5, h6]

/-- C1 witness: a concrete age-verified record that is self-excluded
until time 2000 and exactly at its daily limit reports `SelfExcluded`
at time 1000, not `DailyLimitReached`. -/
theorem C1_witness :
    check_eligibility
        (some { age_verified := true, daily_limit := 100,
                monthly_limit := 1000, daily_spent := 100,
                monthly_spent := 100, last_reset_day := 0,
                last_reset_month := 0, cooldown_until := none,
                self_excluded_until := some 2000 }) 5 1000
      = .SelfExcluded
    ∧ check_eligibility
        (some { age_verified := true, daily_limit := 100,
                monthly_limit := 1000, daily_spent := 100,
                monthly_spent := 100, last_reset_day := 0,
                last_reset_month := 0, cooldown_until := none,
                self_excluded_until := some 2000 }) 5 1000
      ≠ .DailyLimitReached :=
  ⟨(C1_check_eligibility_precedence _ 5 1000 2000 rfl rfl (by norm_num)
      rfl).1,
   (C1_check_eligibility_precedence _ 5 1000 2000 rfl rfl (by norm_num)
      rfl).2.1⟩

/-- C3: on a well-formed request whose proof the upstream verifier
accepts, the relay responds 200 with the hex encoding of the 64-byte
Ed25519 signature over the stripped address — a string of 128
hexadecimal characters — and the abstract Ed25519 scheme satisfies the
sign-then-verify round trip: verification of `(R, S) = (r·B, (r + h·s)
mod L)` under the public key `A = s·B` succeeds. -/
theorem C3_sign_then_verify {G : Type} [AddCommGroup G] [DecidableEq G]
    (S : EdScheme G) (s r h : ℕ)
    (a : String) (p : JSVal) (ha : a ≠ "")
    (hpt : p.truthy = true) (hpo : p.typeofIsObject = true)
    (signBytes : String → List ℕ)
    (hlen : (signBytes (addressToSign a)).length = 64)
    (hbytes : ∀ b ∈ signBytes (addressToSign a), b < 256) :
    (verifyAndSignHandler (some (.str a)) (some p) .accepted
        signBytes).status = 200
    ∧ (verifyAndSignHandler (some (.str a)) (some p) .accepted
        signBytes).signature = some (bytesToHex (signBytes (addressToSign a)))
    ∧ (bytesToHex (signBytes (addressToSign a))).length = 128
    ∧ (bytesToHex (signBytes (addressToSign a))).data.all isHexDigitJS
        = true
    ∧ edVerify S (edPublicKey S s) (edSignR S r) (edSignS S s r h) h
        = true := by
  refine ⟨?_, ?_, ?_, bytesToHex_all_hex hbytes, ?_⟩
  · unfold verifyAndSignHandler
    simp [ha, hpt, hpo, handleUpstream]
  · unfold verifyAndSignHandler
    simp [ha, hpt, hpo, handleUpstream]
  · rw [bytesToHex_length, hlen]
  · unfold edVerify edPublicKey edSignR edSignS
    rw [decide_eq_true_eq, mod_nsmul_eq S.L _ _ S.orderB, add_nsmul,
      mul_smul]

/-- C3 witness: at a concrete accepted request with a constant 64-byte
signing function, the relay returns status 200 and a 128-character
signature, and the toy instance of the scheme verifies a concrete
signature. -/
theorem C3_witness :
    (verifyAndSignHandler (some (.str "3acct")) (some .obj) .accepted
        (fun _ => List.replicate 64 0)).status = 200
    ∧ (bytesToHex (List.replicate 64 0)).length = 128
    ∧ edVerify toyScheme (edPublicKey toyScheme 2) (edSignR toyScheme 3)
        (edSignS toyScheme 2 3 4) 4 = true :=
  ⟨(C3_sign_then_verify toyScheme 2 3 4 "3acct" .obj (by decide) rfl rfl
      (fun _ => List.replicate 64 0) (by decide) (by decide)).1,
   (C3_sign_then_verify toyScheme 2 3 4 "3acct" .obj (by decide) rfl rfl
      (fun _ => List.replicate 64 0) (by decide) (by decide)).2.2.1,
   (C3_sign_then_verify toyScheme 2 3 4 "3acct" .obj (by decide) rfl rfl
      (fun _ => List.replicate 64 0) (by decide) (by decide)).2.2.2.2⟩

end SafeStake
